import Mathlib

/-!
A verification development for `data_processing_functions.py`: two generic
operations (`filter`, `aggregate`) over a list of flat key-value records,
plus the fixed demo driver (`main`) that answers four canned queries about
city records.

Modelling decisions:
* A Python dict is modelled as an association list `Record α := List (String × α)`;
  `k in d` and `d[k]` become `Record.hasKey` and `Record.getVal` (first match,
  which agrees with dict semantics since loaded dicts have unique keys).
* Python floats are modelled as exact rationals extended with an absorbing
  NaN element (`PyFloat`).  The demo only adds parsed finite values, divides
  by a positive integer, and compares with `>`, so rounding, infinities and
  signed zeros never influence the properties proved here; NaN propagation
  through `+`, `/` and the false result of `NaN > x` follow IEEE-754.
* Python `float(x)` is modelled by `pyFloatOf`: it fails (`none`) on the
  `None` argument and on unparseable text, and otherwise parses an optional
  sign followed by decimal digits with an optional fractional part.  Exponent
  notation, `inf`/`nan` literals and digit underscores are not modelled; no
  claim depends on them.
* String `strip`/`lower` are modelled by `pyStrip`/`pyLower`, written
  directly on the character list (drop whitespace at both ends; map
  `Char.toLower`), faithful to Python on the ASCII data the demo handles.
* Raising an exception is modelled by returning `none`: `pyDiv` is `none` on a
  zero divisor (Python raises `ZeroDivisionError`), so the average fold has
  type `List String → Option PyFloat` and a `some` result means "no exception".
* The filesystem probing of `_load_cities` is abstracted by a `FileSystem`
  structure carrying the `os.path.exists` oracle and the (out-of-scope) CSV
  reader that yields already-normalized records.
-/

namespace DataProc

/-- A Python float value: an exact rational or NaN. -/
inductive PyFloat where
  | num : ℚ → PyFloat
  | nan : PyFloat
  deriving DecidableEq, Repr

/-- NaN test, as performed by `str(f) == 'nan'` in the source. -/
def isNan : PyFloat → Bool
  | .nan => true
  | .num _ => false

/-- Addition on Python floats: NaN is absorbing, finite values add exactly. -/
def pyAdd : PyFloat → PyFloat → PyFloat
  | .nan, _ => .nan
  | _, .nan => .nan
  | .num a, .num b => .num (a + b)

/-- Python `sum` over floats: left fold of `+` starting from `0`. -/
def pySum (xs : List PyFloat) : PyFloat :=
  xs.foldl pyAdd (.num 0)

/-- Python float-by-integer division: raises (`none`) on a zero divisor,
NaN propagates, and otherwise divides exactly. -/
def pyDiv (a : PyFloat) (n : Nat) : Option PyFloat :=
  if n = 0 then none
  else match a with
    | .nan => some .nan
    | .num q => some (.num (q / (n : ℚ)))

/-- Comparison `f > q` where the left side is a Python float: false whenever
the left side is NaN. -/
def pyGt (a : PyFloat) (q : ℚ) : Bool :=
  match a with
  | .nan => false
  | .num x => q < x

/-- Python `str.strip`: drop whitespace from both ends. -/
def pyStrip (s : String) : String :=
  ⟨((s.data.dropWhile Char.isWhitespace).reverse.dropWhile Char.isWhitespace).reverse⟩

/-- Python `str.lower`: lowercase every character. -/
def pyLower (s : String) : String :=
  ⟨s.data.map Char.toLower⟩

/-- Numeric value of a list of decimal digit characters; `none` if the list
is empty or holds a non-digit. -/
def digitsVal (cs : List Char) : Option Nat :=
  if cs.isEmpty then none
  else cs.foldl
    (fun acc c => match acc with
      | none => none
      | some n => if c.isDigit then some (n * 10 + (c.toNat - 48)) else none)
    (some 0)

/-- Parse an unsigned decimal numeral `digits [. digits]` (at least one digit
overall, as Python's `float` accepts `"12."` and `".5"`). -/
def parseUnsigned (cs : List Char) : Option ℚ :=
  let intPart := cs.takeWhile Char.isDigit
  let rest := cs.dropWhile Char.isDigit
  match rest with
  | [] => (digitsVal intPart).map (fun n => (n : ℚ))
  | '.' :: frac =>
    if frac.all Char.isDigit then
      match intPart.isEmpty, frac.isEmpty with
      | true, true => none
      | _, _ =>
        let i : Nat := (digitsVal intPart).getD 0
        let f : Nat := (digitsVal frac).getD 0
        some ((i : ℚ) + (f : ℚ) / ((10 : ℚ) ^ frac.length))
    else none
  | _ => none

/-- Parse a Python decimal float literal: surrounding whitespace stripped,
optional sign, then an unsigned numeral. -/
def parseRat (s : String) : Option ℚ :=
  match (pyStrip s).data with
  | '-' :: cs => (parseUnsigned cs).map Neg.neg
  | '+' :: cs => parseUnsigned cs
  | cs => parseUnsigned cs

/-- Python `float(x)` on the values the demo passes it: fails on `None`
(modelled `none`) and on unparseable text, succeeds with the parsed value. -/
def pyFloatOf : Option String → Option PyFloat
  | none => none
  | some s => (parseRat s).map PyFloat.num

/-- Source `_to_float`: `try: return float(x) except: return float("nan")`. -/
def _to_float (x : Option String) : PyFloat :=
  match pyFloatOf x with
  | some v => v
  | none => PyFloat.nan

/-- A flat key-value record (one city); a Python dict as an association list. -/
abbrev Record (α : Type) := List (String × α)

/-- Records with string values, as produced by the CSV loader. -/
abbrev StrRecord := Record String

namespace Record

/-- Python `key in d`. -/
def hasKey {α : Type} (d : Record α) (k : String) : Bool :=
  d.any (fun p => p.1 == k)

/-- Python `d[key]` / `d.get(key)`: first binding of the key, if any. -/
def getVal {α : Type} (d : Record α) (k : String) : Option α :=
  (d.find? (fun p => p.1 == k)).map (fun p => p.2)

/-- Python `d.get(key, dflt)`. -/
def getD {α : Type} (d : Record α) (k : String) (dflt : α) : α :=
  (d.getVal k).getD dflt

end Record

/-- Source `filter(condition, dict_list)`: the list comprehension
`[d for d in dict_list if condition(d)]`. -/
def filter {α : Type} (condition : α → Bool) (dict_list : List α) : List α :=
  dict_list.filter condition

/-- The value-collection loop of `aggregate`: walk `dict_list` in order and
append `d[aggregation_key]` whenever `aggregation_key in d` (equivalently,
whenever `getVal` succeeds — see `hasKey_iff_getVal_isSome`). -/
def extractVals {α : Type} (aggregation_key : String) : List (Record α) → List α
  | [] => []
  | d :: rest =>
    match Record.getVal d aggregation_key with
    | some v => v :: extractVals aggregation_key rest
    | none => extractVals aggregation_key rest

/-- Source `aggregate(aggregation_key, aggregation_function, dict_list)`. -/
def aggregate {α β : Type} (aggregation_key : String)
    (aggregation_function : List α → β) (dict_list : List (Record α)) : β :=
  aggregation_function (extractVals aggregation_key dict_list)

/-- The average-temperature fold from `main`: NaN on an empty sequence,
otherwise the sum of all converted values divided by `max 1 (count of
non-NaN conversions)`.  Note the numerator sums every converted value,
NaN sentinels included. -/
def avgFold (xs : List String) : Option PyFloat :=
  if xs.isEmpty then some PyFloat.nan
  else
    pyDiv (pySum (xs.map (fun x => _to_float (some x))))
      (max 1 ((xs.map (fun x => if isNan (_to_float (some x)) then 0 else 1)).sum))

/-- Demo query 1: `aggregate("temperature", <average fold>, cities)`. -/
def avg_temp (cities : List StrRecord) : Option PyFloat :=
  aggregate "temperature" avgFold cities

/-- The Germany predicate: `str(d.get("country","")).strip().lower() == "germany"`. -/
def germanyPred (d : StrRecord) : Bool :=
  pyLower (pyStrip (d.getD "country" "")) == "germany"

/-- Demo query 2: all cities in Germany. -/
def cities_in_germany (cities : List StrRecord) : List StrRecord :=
  filter germanyPred cities

/-- The Spain predicate: normalized country equals `"spain"` and
`_to_float(d.get("temperature")) > 12`. -/
def spainPred (d : StrRecord) : Bool :=
  (pyLower (pyStrip (d.getD "country" "")) == "spain")
    && pyGt (_to_float (d.getVal "temperature")) 12

/-- Demo query 3: all cities in Spain with temperature above 12 °C. -/
def spain_above_12 (cities : List StrRecord) : List StrRecord :=
  filter spainPred cities

/-- The unique-country fold from `main`:
`len({str(x).strip().lower() for x in xs if str(x).strip()})`. -/
def uniqueFold (xs : List String) : Nat :=
  (((xs.filter (fun x => !(pyStrip x == ""))).map (fun x => pyLower (pyStrip x))).toFinset).card

/-- Demo query 4: `aggregate("country", <unique fold>, cities)`. -/
def unique_country_count (cities : List StrRecord) : Nat :=
  aggregate "country" uniqueFold cities

/-- The ordered candidate paths probed by `_load_cities`. -/
def defaultCandidates : List String :=
  ["./Cities.csv", "Cities.csv", "/content/Cities.csv", "/mnt/data/Cities.csv"]

/-- The external collaborators of `_load_cities`: the `os.path.exists`
oracle and the CSV reader, which yields the rows of a path as records whose
keys are already trimmed and lowercased and whose values are trimmed. -/
structure FileSystem where
  pathExists : String → Bool
  readCities : String → List StrRecord

/-- The probing loop of `_load_cities`: the first candidate that exists. -/
def findPath (fs : FileSystem) (candidates : List String) : Option String :=
  candidates.find? fs.pathExists

/-- Source `_load_cities`: probe the candidates; on failure print a warning
and return the empty list, otherwise read the chosen file. -/
def load_cities (fs : FileSystem) : List StrRecord :=
  match findPath fs defaultCandidates with
  | none => []
  | some p => fs.readCities p

/-- The results `main` prints, one field per demo query. -/
structure DemoOutput where
  avgTemp : Option PyFloat
  germany : List StrRecord
  spain : List StrRecord
  uniqueCountries : Nat
  deriving DecidableEq, Repr

/-- Source `main`: load the cities, return early (printing nothing) when the
list is empty, otherwise compute and print the four query results. -/
def main (fs : FileSystem) : Option DemoOutput :=
  let cities := load_cities fs
  if cities.isEmpty then none
  else some
    { avgTemp := avg_temp cities
      germany := cities_in_germany cities
      spain := spain_above_12 cities
      uniqueCountries := unique_country_count cities }

/-- The normalized country value of a record, as the spec words it:
`none` when the country field is missing or its trimmed value is empty,
otherwise the trimmed and lowercased value. -/
def normCountry (d : StrRecord) : Option String :=
  match Record.getVal d "country" with
  | none => none
  | some c => if pyStrip c = "" then none else some (pyLower (pyStrip c))

/-- Modelled from the spec: the unique-country computation as stated —
the number of distinct normalized country values across all records,
ignoring records with a missing country or an empty normalized value. -/
def uniqueCountrySpec (D : List StrRecord) : Nat :=
  ((D.filterMap normCountry).toFinset).card

/-! Example data for witnesses (Scenario A of the spec, plus variants). -/

/-- Scenario A dataset. -/
def exD : List StrRecord :=
  [[("country", "Germany"), ("temperature", "10")],
   [("country", "Spain"), ("temperature", "15")],
   [("country", "spain"), ("temperature", "8")]]

/-- A Spanish record lacking the temperature field. -/
def spainNoTemp : StrRecord := [("country", "Spain")]

/-- A filesystem on which no candidate path exists. -/
def fsNone : FileSystem := ⟨fun _ => false, fun _ => []⟩

/-- A filesystem on which only the second candidate path exists. -/
def fsSnd : FileSystem :=
  ⟨fun s => s == "Cities.csv", fun _ => [[("country", "Germany")]]⟩

/-! Helper lemmas. -/

/-- The collection loop of `aggregate` is `filterMap` of the lookup. -/
theorem extractVals_eq_filterMap {α : Type} (k : String) (ds : List (Record α)) :
    extractVals k ds = ds.filterMap (fun d => Record.getVal d k) := by
  induction ds with
  | nil => rfl
  | cons d rest ih =>
      cases h : Record.getVal d k <;>
        simp [extractVals, List.filterMap_cons, h, ih]

/-- Dict membership agrees with lookup success. -/
theorem hasKey_iff_getVal_isSome {α : Type} (d : Record α) (k : String) :
    Record.hasKey d k = true ↔ (Record.getVal d k).isSome = true := by
  simp [Record.hasKey, Record.getVal, List.any_eq_true, List.find?_isSome]

/-- Multiplicity of an element in a filtered list. -/
theorem count_filter_ite {α : Type} [BEq α] [LawfulBEq α] (p : α → Bool) (l : List α) (a : α) :
    (l.filter p).count a = if p a then l.count a else 0 := by
  by_cases h : p a
  · simp [List.count_filter, h]
  · simp [h, List.count_eq_zero]

/-- A division by a positive integer always returns a value. -/
theorem pyDiv_isSome (a : PyFloat) (n : Nat) (h : n ≠ 0) : ∃ v, pyDiv a n = some v := by
  cases a <;> simp [pyDiv, h]

/-- A successful `find?` returns a satisfying element that is first: every
list element before it falsifies the test. -/
theorem find?_first {α : Type} (p : α → Bool) (l : List α) (a : α)
    (h : l.find? p = some a) :
    ∃ before after, l = before ++ a :: after ∧ ∀ x ∈ before, p x = false := by
  induction l with
  | nil => simp at h
  | cons b t ih =>
      by_cases hb : p b
      · rw [List.find?_cons_of_pos _ hb] at h
        exact ⟨[], t, by simpa using h, by simp⟩
      · rw [List.find?_cons_of_neg _ hb] at h
        obtain ⟨as, bs, rfl, hall⟩ := ih h
        refine ⟨b :: as, bs, rfl, ?_⟩
        intro x hx
        rcases List.mem_cons.mp hx with rfl | hx
        · simpa using hb
        · exact hall x hx

/-- The comparison `f > q` succeeds exactly on finite values above `q`;
in particular it is false on NaN. -/
theorem pyGt_iff (a : PyFloat) (q : ℚ) :
    pyGt a q = true ↔ ∃ x, a = PyFloat.num x ∧ q < x := by
  cases a <;> simp [pyGt]

/-- Folding `pyAdd` from a NaN accumulator stays NaN. -/
theorem foldl_pyAdd_nan (l : List PyFloat) : l.foldl pyAdd PyFloat.nan = PyFloat.nan := by
  induction l with
  | nil => rfl
  | cons y t ih => simpa [pyAdd] using ih

/-- The sum of a non-empty list of NaNs is NaN. -/
theorem pySum_all_nan (l : List PyFloat) (hne : l ≠ [])
    (h : ∀ y ∈ l, y = PyFloat.nan) : pySum l = PyFloat.nan := by
  cases l with
  | nil => exact absurd rfl hne
  | cons y t =>
      have hy : y = PyFloat.nan := h y (List.mem_cons_self y t)
      simp [pySum, hy, pyAdd, foldl_pyAdd_nan]

/-! Claim theorems. -/

/-- C1: for every predicate `P` and dataset `D`, `filter P D` is an
order-preserving subsequence of `D`, every element of it satisfies `P`,
each record occurs in it exactly as often as in `D` when `P` accepts it and
never otherwise (no duplication, no omission), and its length is at most
`|D|`. -/
theorem filter_selects_exactly (P : StrRecord → Bool) (D : List StrRecord) :
    List.Sublist (filter P D) D
      ∧ (∀ d ∈ filter P D, P d = true)
      ∧ (∀ d, (filter P D).count d = if P d then D.count d else 0)
      ∧ (filter P D).length ≤ D.length :=
  ⟨List.filter_sublist D, fun _ hd => List.of_mem_filter hd,
   fun d => count_filter_ite P D d, List.length_filter_le P D⟩

/-- Witness for C1 at the Scenario A dataset and the Germany predicate. -/
theorem filter_selects_exactly_witness :
    (filter germanyPred exD).count [("country", "Germany"), ("temperature", "10")]
      = if germanyPred [("country", "Germany"), ("temperature", "10")]
        then exD.count [("country", "Germany"), ("temperature", "10")] else 0 :=
  (filter_selects_exactly germanyPred exD).2.2.1 _

/-- C2: `aggregate K F D` applies `F` to the intermediate sequence of
looked-up values, that sequence is the in-order `filterMap` of the lookup
over `D` (a value appears exactly when the lookup succeeds, records lacking
the key are skipped with no placeholder), and lookup success coincides with
key presence — not with any truthiness of the stored value. -/
theorem aggregate_fold_of_extracted {β : Type} (K : String)
    (F : List String → β) (D : List StrRecord) :
    aggregate K F D = F (D.filterMap (fun d => Record.getVal d K))
      ∧ extractVals K D = D.filterMap (fun d => Record.getVal d K)
      ∧ (∀ d : StrRecord, Record.hasKey d K = true ↔ (Record.getVal d K).isSome = true) := by
  refine ⟨?_, extractVals_eq_filterMap K D, fun d => hasKey_iff_getVal_isSome d K⟩
  simp [aggregate, extractVals_eq_filterMap]

/-- Witness for C2: counting temperature values on the Scenario A dataset. -/
theorem aggregate_fold_of_extracted_witness :
    aggregate "temperature" (fun xs => xs.length) exD
      = (exD.filterMap (fun d => Record.getVal d "temperature")).length :=
  (aggregate_fold_of_extracted "temperature" (fun xs => xs.length) exD).1

/-- C3 (failing input): on a dataset whose temperatures are `"abc"`, `"10"`
and `"14"`, the demo's average is NaN — the NaN sentinel of the unparseable
value is summed into the numerator — although the average of the numeric
values alone is 12, as the second conjunct shows for the fold on the numeric
values only. -/
theorem avg_temp_nan_on_nonnumeric :
    avg_temp [[("temperature", "abc")], [("temperature", "10")], [("temperature", "14")]]
        = some PyFloat.nan
      ∧ avgFold ["10", "14"] = some (PyFloat.num 12) := by
  have e10 : _to_float (some "10") = PyFloat.num ((10 : Nat) : ℚ) := rfl
  have e14 : _to_float (some "14") = PyFloat.num ((14 : Nat) : ℚ) := rfl
  have eabc : _to_float (some "abc") = PyFloat.nan := rfl
  constructor
  · rw [avg_temp, aggregate, show extractVals "temperature"
        [[("temperature", "abc")], [("temperature", "10")], [("temperature", "14")]]
          = ["abc", "10", "14"] from rfl]
    simp only [avgFold, List.isEmpty_cons, Bool.false_eq_true, if_false, List.map_cons,
      List.map_nil, e10, e14, eabc, pySum, List.foldl_cons, List.foldl_nil, pyAdd, isNan,
      List.sum_cons, List.sum_nil, pyDiv]
    norm_num
  · simp only [avgFold, List.isEmpty_cons, Bool.false_eq_true, if_false, List.map_cons,
      List.map_nil, e10, e14, pySum, List.foldl_cons, List.foldl_nil, pyAdd, isNan,
      List.sum_cons, List.sum_nil, pyDiv]
    norm_num

/-- C4: a record is selected by the Spain query exactly when it occurs in the
dataset, its country normalizes to `"spain"`, and its temperature parses to a
number exceeding 12; a record with a missing or unparseable temperature is
never selected. -/
theorem spain_query_spec (D : List StrRecord) (d : StrRecord) :
    (d ∈ spain_above_12 D ↔
      d ∈ D ∧ pyLower (pyStrip (Record.getD d "country" "")) = "spain"
        ∧ ∃ q : ℚ, _to_float (Record.getVal d "temperature") = PyFloat.num q ∧ 12 < q)
      ∧ (Record.getVal d "temperature" = none → spainPred d = false)
      ∧ (_to_float (Record.getVal d "temperature") = PyFloat.nan → spainPred d = false) := by
  refine ⟨?_, ?_, ?_⟩
  · rw [spain_above_12, filter, List.mem_filter]
    simp only [spainPred, Bool.and_eq_true, beq_iff_eq, pyGt_iff, and_assoc]
  · intro h
    simp [spainPred, h, _to_float, pyFloatOf, pyGt]
  · intro h
    simp [spainPred, h, pyGt]

/-- Witness for C4: the missing-temperature Spanish record is rejected, and
the 15-degree Spanish record of Scenario A is selected. -/
theorem spain_query_spec_witness :
    spainPred spainNoTemp = false
      ∧ [("country", "Spain"), ("temperature", "15")] ∈ spain_above_12 exD :=
  ⟨(spain_query_spec [] spainNoTemp).2.1 rfl,
   (spain_query_spec exD [("country", "Spain"), ("temperature", "15")]).1.mpr
     ⟨by simp [exD], rfl, ((15 : Nat) : ℚ), rfl, by norm_num⟩⟩

/-- C5: the demo's unique-country computation equals the spec's distinct
count: the number of distinct trimmed-and-lowercased country values, ignoring
records whose country is missing or trims to the empty string. -/
theorem unique_country_count_spec (D : List StrRecord) :
    unique_country_count D = uniqueCountrySpec D := by
  have hlist : ∀ xs : List String,
      (xs.filter (fun x => !(pyStrip x == ""))).map (fun x => pyLower (pyStrip x))
        = xs.filterMap (fun c => if pyStrip c = "" then none else some (pyLower (pyStrip c))) := by
    intro xs
    induction xs with
    | nil => rfl
    | cons c t ih => by_cases h : pyStrip c = "" <;> simp [h, ih]
  have hbind : ∀ d : StrRecord,
      (Record.getVal d "country").bind
          (fun c => if pyStrip c = "" then none else some (pyLower (pyStrip c)))
        = normCountry d := by
    intro d
    cases h : Record.getVal d "country" <;> simp [normCountry, h]
  rw [unique_country_count, aggregate, uniqueFold, hlist,
    extractVals_eq_filterMap, List.filterMap_filterMap, uniqueCountrySpec]
  simp only [hbind]

/-- Witness for C5 at the Scenario A dataset: both sides count two distinct
countries. -/
theorem unique_country_count_spec_witness :
    unique_country_count exD = uniqueCountrySpec exD ∧ unique_country_count exD = 2 :=
  ⟨unique_country_count_spec exD, by decide⟩

/-- C6: when no candidate path exists, loading yields the empty dataset and
`main` produces no results at all; when probing succeeds, the chosen path
exists and every candidate listed before it does not. -/
theorem main_missing_file (fs : FileSystem) :
    ((∀ p ∈ defaultCandidates, fs.pathExists p = false)
        → load_cities fs = [] ∧ main fs = none)
      ∧ (∀ p, findPath fs defaultCandidates = some p →
          fs.pathExists p = true
            ∧ ∃ before after, defaultCandidates = before ++ p :: after
                ∧ ∀ q ∈ before, fs.pathExists q = false) := by
  constructor
  · intro hall
    have hfind : findPath fs defaultCandidates = none :=
      List.find?_eq_none.mpr (fun p hp => by simp [hall p hp])
    have hload : load_cities fs = [] := by rw [load_cities, hfind]
    exact ⟨hload, by rw [main, hload]; rfl⟩
  · intro p hp
    exact ⟨List.find?_some hp, find?_first fs.pathExists defaultCandidates p hp⟩

/-- Witness for C6: on a filesystem with no candidate present `main` is
silent, and on one where only `Cities.csv` exists that path is chosen and
found to exist. -/
theorem main_missing_file_witness :
    (load_cities fsNone = [] ∧ main fsNone = none) ∧ fsSnd.pathExists "Cities.csv" = true :=
  ⟨(main_missing_file fsNone).1 (by decide),
   ((main_missing_file fsSnd).2 "Cities.csv" (by decide)).1⟩

/-- C7: on the empty dataset every demo query is defined: the average fold
returns the NaN "no data" value on the empty value sequence, the Germany and
Spain selections are empty, and the unique-country count is 0. -/
theorem empty_dataset_defined :
    avg_temp ([] : List StrRecord) = some PyFloat.nan
      ∧ avgFold [] = some PyFloat.nan
      ∧ cities_in_germany [] = []
      ∧ spain_above_12 [] = []
      ∧ unique_country_count [] = 0 := by
  refine ⟨rfl, rfl, rfl, rfl, rfl⟩

/-- C8: filtering with the constant-true predicate returns the dataset
unchanged, and with the constant-false predicate the empty sequence. -/
theorem filter_const (D : List StrRecord) :
    filter (fun _ => true) D = D ∧ filter (fun _ => false) D = [] :=
  ⟨List.filter_true D, List.filter_false D⟩

/-- C9: `_to_float` is total: when the underlying conversion fails (missing
value or unparseable text) it returns the NaN sentinel, and when the
conversion succeeds it returns the converted value — it never propagates the
failure. -/
theorem to_float_total (x : Option String) :
    (pyFloatOf x = none → _to_float x = PyFloat.nan)
      ∧ (∀ v, pyFloatOf x = some v → _to_float x = v) := by
  cases h : pyFloatOf x <;> simp [_to_float, h]

/-- Witness for C9: the unconvertible text `"abc"` maps to NaN. -/
theorem to_float_total_witness : _to_float (some "abc") = PyFloat.nan :=
  (to_float_total (some "abc")).1 rfl

/-- C10: the average fold always returns a value (the divisor `max 1 _` is
at least 1, so the division never raises), and on a non-empty sequence of
entirely non-numeric values the result is NaN rather than an error. -/
theorem avgFold_never_raises (xs : List String) :
    (∃ v, avgFold xs = some v)
      ∧ 1 ≤ max 1 ((xs.map (fun x => if isNan (_to_float (some x)) then 0 else 1)).sum)
      ∧ (xs ≠ [] → (∀ x ∈ xs, isNan (_to_float (some x)) = true)
          → avgFold xs = some PyFloat.nan) := by
  have hdiv : max 1 ((xs.map (fun x => if isNan (_to_float (some x)) then 0 else 1)).sum) ≠ 0 :=
    Nat.ne_of_gt (lt_of_lt_of_le Nat.zero_lt_one (le_max_left 1 _))
  refine ⟨?_, le_max_left 1 _, ?_⟩
  · by_cases hxs : xs.isEmpty = true
    · exact ⟨PyFloat.nan, by simp [avgFold, hxs]⟩
    · rw [avgFold, if_neg hxs]
      exact pyDiv_isSome _ _ hdiv
  · intro hne hall
    have hxs : ¬ xs.isEmpty = true := by
      simp [List.isEmpty_iff, hne]
    have hmapne : xs.map (fun x => _to_float (some x)) ≠ [] := by
      simpa using hne
    have hmapnan : ∀ y ∈ xs.map (fun x => _to_float (some x)), y = PyFloat.nan := by
      intro y hy
      obtain ⟨x, hx, rfl⟩ := List.mem_map.mp hy
      have := hall x hx
      revert this
      cases _to_float (some x) <;> simp [isNan]
    rw [avgFold, if_neg hxs, pySum_all_nan _ hmapne hmapnan]
    simp [pyDiv, hdiv]

/-- Witness for C10: the all-non-numeric one-element sequence yields NaN,
with no division error. -/
theorem avgFold_never_raises_witness : avgFold ["abc"] = some PyFloat.nan :=
  (avgFold_never_raises ["abc"]).2.2 (by decide) (by decide)

end DataProc
